import Mathlib

/-!
Verification development for the I3D exporter core (scene-graph construction,
node-type resolution, deferred reparenting, bone transform computation and
animation baking), shallowly embedded from the Python sources
`addon/i3dio/exporter.py`, `addon/i3dio/node_classes/skinned_mesh.py`,
`addon/i3dio/node_classes/animation.py` and `addon/i3dio/utility.py`.

Matrices are 4x4 rational matrices (`mathutils.Matrix` values), fallible
Python code is embedded with `Option`/`Except`, and the mutable Blender scene
state touched by animation baking is threaded explicitly.
-/

namespace I3DExporter

/-! ## 4x4 matrices and `mathutils` operations -/

/-- The 4x4 matrices used by `mathutils.Matrix`, with rational entries. -/
abbrev Mat4 := Matrix (Fin 4) (Fin 4) ℚ

/-- `mathutils.Matrix.inverted_safe()`: the inverse of the matrix, or the
identity matrix when the matrix is singular. -/
def inverted_safe (m : Mat4) : Mat4 :=
  if m.det = 0 then 1 else m.det⁻¹ • m.adjugate

theorem inverted_safe_of_det_ne {m : Mat4} (h : m.det ≠ 0) : inverted_safe m = m⁻¹ := by
  rw [inverted_safe, if_neg h, Matrix.inv_def, Ring.inverse_eq_inv]

theorem inverted_safe_one : inverted_safe (1 : Mat4) = 1 := by
  simp [inverted_safe, Matrix.det_one, Matrix.adjugate_one]

theorem inverted_safe_mul {m : Mat4} (h : m.det ≠ 0) : inverted_safe m * m = 1 := by
  rw [inverted_safe_of_det_ne h]
  exact Matrix.nonsing_inv_mul m (isUnit_iff_ne_zero.mpr h)

theorem mul_inverted_safe {m : Mat4} (h : m.det ≠ 0) : m * inverted_safe m = 1 := by
  rw [inverted_safe_of_det_ne h]
  exact Matrix.mul_nonsing_inv m (isUnit_iff_ne_zero.mpr h)

/-- A concrete non-identity invertible matrix (a diagonal scale), used as
explicit input for counterexamples. -/
def dScale : Mat4 := Matrix.diagonal ![2, 1, 1, 1]

theorem dScale_det : dScale.det = 2 := by
  simp [dScale, Matrix.det_diagonal, Fin.prod_univ_four]

theorem dScale_ne_one : dScale ≠ 1 := by
  rw [dScale, ← Matrix.diagonal_one]
  intro h
  have h3 := congrFun (Matrix.diagonal_injective h) 0
  norm_num at h3

theorem inverted_safe_dScale_ne_one : inverted_safe dScale ≠ 1 := by
  intro h
  have h1 : inverted_safe dScale * dScale = 1 :=
    inverted_safe_mul (by rw [dScale_det]; norm_num)
  rw [h, one_mul] at h1
  exact dScale_ne_one h1

/-! ## Coordinate converter

The converter itself lives in `i3d.py`, which is not part of the source set;
only its callers are. -/

/-- Modelled from the spec: `I3D.to_i3d`, the basis sandwich conversion
`target = Conv * local * Conv^-1` used for matrices expressed relative to a
different parent space (spec section 4.1; `i3d.py` is missing from the
sources). The inverse is taken with `inverted_safe`, which agrees with the
true inverse for the (always invertible) axis-conversion matrices. -/
def to_i3d (conv m : Mat4) : Mat4 := conv * m * inverted_safe conv

/-- Modelled from the spec: `I3D.to_i3d_forward`, the forward-only conversion
`target = Conv * local` used for bone-local matrices already expressed in the
armature basis (spec section 4.1; `i3d.py` is missing from the sources). -/
def to_i3d_forward (conv m : Mat4) : Mat4 := conv * m

theorem to_i3d_one_right (conv : Mat4) (h : conv.det ≠ 0) : to_i3d conv 1 = 1 := by
  rw [to_i3d, mul_one, mul_inverted_safe h]

theorem to_i3d_conv_one (m : Mat4) : to_i3d 1 m = m := by
  rw [to_i3d, one_mul, inverted_safe_one, mul_one]

theorem to_i3d_forward_conv_one (m : Mat4) : to_i3d_forward 1 m = m := by
  rw [to_i3d_forward, one_mul]

/-! ## Bone transforms (`skinned_mesh.py`, `SkinnedMeshBoneNode`) -/

/-- The parent of a `SkinnedMeshBoneNode` in the scene graph, as it is
inspected by `_transform_for_conversion`:
either the scene root (`None`), another bone node (carrying the matrix_local of the parent bone), or an ordinary scene node (carrying the matrix_world of its Blender object). -/
inductive BoneParent where
  | sceneRoot : BoneParent
  | boneNode (parent_bone_matrix_local : Mat4) : BoneParent
  | sceneNode (parent_object_matrix_world : Mat4) : BoneParent
deriving DecidableEq

/-- The fields of a `SkinnedMeshBoneNode` (and its `SkinnedMeshRootNode`) read
by `_transform_for_conversion` and `_get_child_of_transform`:
`matrix_local` is `bone_object.matrix_local` (the bone in armature space),
`deferred_target_world` is `deferred_target.matrix_world` when the CHILD_OF
target has not been processed yet, `root_is_collapsed` is
`root_node.is_collapsed` and `armature_matrix_world` is
`root_node.blender_object.matrix_world`. -/
structure BoneState where
  matrix_local : Mat4
  parent : BoneParent
  is_child_of : Bool
  deferred_target_world : Option Mat4
  root_is_collapsed : Bool
  armature_matrix_world : Mat4
deriving DecidableEq

/-- `SkinnedMeshBoneNode._get_child_of_transform`: the bone transform when the
bone is constrained to an external object. The target is
`self.deferred_target or self.parent.blender_object`; `none` models the
`AttributeError` Python would raise if neither yields an object with a world
matrix. The result is `target_world^-1 * armature_world * bone_local`. -/
def get_child_of_transform (conv : Mat4) (st : BoneState)
    (bone_in_armature_space : Mat4) : Option Mat4 :=
  let target_object_world : Option Mat4 :=
    match st.deferred_target_world with
    | some t => some t
    | none =>
      match st.parent with
      | BoneParent.sceneNode w => some w
      | _ => none
  target_object_world.map (fun tw =>
    inverted_safe (to_i3d conv tw) * to_i3d conv st.armature_matrix_world *
      bone_in_armature_space)

/-- `SkinnedMeshBoneNode._transform_for_conversion`: the final local
matrix of the bone in I3D space, selected by four mutually exclusive cases in priority
order: bone parented to a bone; CHILD_OF constraint (resolved or deferred);
collapsed armature; default root bone of a non-collapsed armature. -/
def transform_for_conversion (conv : Mat4) (st : BoneState) : Option Mat4 :=
  match st.parent with
  | BoneParent.boneNode p => some (inverted_safe p * st.matrix_local)
  | _ =>
    let bone_in_armature_space := to_i3d_forward conv st.matrix_local
    if st.is_child_of || st.deferred_target_world.isSome then
      get_child_of_transform conv st bone_in_armature_space
    else if st.root_is_collapsed then
      let parent_world :=
        match st.parent with
        | BoneParent.sceneNode w => to_i3d conv w
        | _ => (1 : Mat4)
      some (inverted_safe parent_world * to_i3d conv st.armature_matrix_world *
        bone_in_armature_space)
    else
      some bone_in_armature_space

/-! ## Natural (outliner) ordering (`utility.py`) -/

/-- One token of the natural-ordering sort key: a maximal digit run parsed as
a number, or a (lowercased) non-digit run. -/
inductive NatKeyTok where
  | num (n : ℕ) : NatKeyTok
  | str (s : String) : NatKeyTok
deriving DecidableEq

/-- Parses a maximal digit run as a natural number (Python `int(t)` on a
digit-only token). -/
def digitRunToNat (cs : List Char) : ℕ :=
  cs.foldl (fun acc c => 10 * acc + (c.toNat - 48)) 0

theorem length_dropWhile_le (p : Char → Bool) (cs : List Char) :
    (cs.dropWhile p).length ≤ cs.length := by
  induction cs with
  | nil => simp
  | cons a l ih =>
    rw [List.dropWhile_cons]
    by_cases h : p a <;> simp [h] <;> omega

/-- The token list produced by `re.split` on the digit-run pattern followed by
`int(t) if t.isdigit() else t.lower()`: non-digit segments (possibly empty,
lowercased) alternating with parsed digit runs. In the recursive branch the
head of the dropWhile result is always a digit, so taking the digit run from
`a :: rest` and recursing on `rest.dropWhile` matches the regex split. -/
def naturalKeyAux (cs : List Char) : List NatKeyTok :=
  let p := cs.takeWhile (fun c => !c.isDigit)
  match h : cs.dropWhile (fun c => !c.isDigit) with
  | [] => [NatKeyTok.str (String.mk (p.map Char.toLower))]
  | a :: rest =>
    NatKeyTok.str (String.mk (p.map Char.toLower)) ::
      NatKeyTok.num (digitRunToNat ((a :: rest).takeWhile Char.isDigit)) ::
      naturalKeyAux (rest.dropWhile Char.isDigit)
termination_by cs.length
decreasing_by
  have hp : (a :: rest).length ≤ cs.length := by
    rw [← h]; exact length_dropWhile_le _ cs
  have hd : (rest.dropWhile Char.isDigit).length ≤ rest.length :=
    length_dropWhile_le _ rest
  simp only [List.length_cons] at hp
  omega

/-- The key function of `utility.sort_blender_objects_by_outliner_ordering`. -/
def naturalKey (s : String) : List NatKeyTok := naturalKeyAux s.data

/-- Strict comparison of two key tokens. Numbers compare numerically and
strings lexicographically; Python raises on a number/string comparison, but
by maximality of the captured digit runs two outliner keys never reach a
mixed-type comparison at equal prefixes, so that branch is unreachable. -/
def natKeyTokLt : NatKeyTok → NatKeyTok → Bool
  | NatKeyTok.num m, NatKeyTok.num n => m < n
  | NatKeyTok.str s, NatKeyTok.str t => s < t
  | NatKeyTok.num _, NatKeyTok.str _ => true
  | NatKeyTok.str _, NatKeyTok.num _ => false

/-- Lexicographic strict comparison of key token lists, as Python compares
the list keys produced by the sort key function. -/
def natKeyLt : List NatKeyTok → List NatKeyTok → Bool
  | [], [] => false
  | [], _ :: _ => true
  | _ :: _, [] => false
  | a :: as_, b :: bs => if a = b then natKeyLt as_ bs else natKeyTokLt a b

/-- Inserts an element into an already sorted list, after every element that
does not strictly exceed it (the stable position). -/
def insertStable (lt : α → α → Bool) (x : α) : List α → List α
  | [] => [x]
  | y :: ys => if lt x y then x :: y :: ys else y :: insertStable lt x ys

/-- The Python built-in `sorted` with a key-derived strict comparison: a stable
sort, modelled as stable insertion sort (stability plus sortedness determine
the output of `sorted` uniquely). -/
def pySorted (lt : α → α → Bool) (l : List α) : List α :=
  l.foldl (fun acc x => insertStable lt x acc) []

theorem insertStable_perm (lt : α → α → Bool) (x : α) (l : List α) :
    (insertStable lt x l).Perm (x :: l) := by
  induction l with
  | nil => rfl
  | cons y ys ih =>
    rw [insertStable]
    by_cases h : lt x y
    · simp [h]
    · simp only [h, if_false]
      exact (List.Perm.cons y ih).trans (List.Perm.swap x y ys)

theorem pySorted_perm (lt : α → α → Bool) (l : List α) : (pySorted lt l).Perm l := by
  suffices h : ∀ acc : List α, (l.foldl (fun acc x => insertStable lt x acc) acc).Perm (l.reverse ++ acc) by
    have h2 := h []
    rw [List.append_nil] at h2
    exact h2.trans (List.reverse_perm l)
  induction l with
  | nil => intro acc; simp
  | cons a l ih =>
    intro acc
    simp only [List.foldl_cons, List.reverse_cons, List.append_assoc, List.singleton_append]
    exact (ih (insertStable lt a acc)).trans
      (List.Perm.append_left l.reverse (insertStable_perm lt a acc))

theorem mem_of_mem_pySorted {lt : α → α → Bool} {l : List α} {x : α}
    (h : x ∈ pySorted lt l) : x ∈ l :=
  (pySorted_perm lt l).mem_iff.mp h

/-- `utility.sort_blender_objects_by_outliner_ordering`, parameterised by the
name of the sorted values (Blender objects are sorted by `x.name` under the
natural-ordering key). -/
def sort_by_outliner_ordering (name : α → String) (objects : List α) : List α :=
  pySorted (fun a b => natKeyLt (naturalKey (name a)) (naturalKey (name b))) objects

theorem sort_by_outliner_ordering_perm (name : α → String) (objects : List α) :
    (sort_by_outliner_ordering name objects).Perm objects :=
  pySorted_perm _ objects

/-! ## Deferred CHILD_OF constraint resolution (`exporter.py`,
`_process_deferred_constraints`) -/

/-- `i3d.processed_objects.get(target_obj)`: looks a source object up in the
map from processed Blender objects to their scene-graph nodes (modelled as an
association list from object name to node name). -/
def lookupProcessed (processed : List (String × String)) (target : String) :
    Option String :=
  (processed.find? (fun p => p.1 == target)).map (fun p => p.2)

/-- The mutable state touched by deferred-constraint resolution: the current parent of each bone
node (by name, `none` = scene root), and the warnings the
logger has received. -/
structure DeferredResolutionState where
  parents : List (String × Option String)
  warnings : List String
deriving DecidableEq

/-- `SceneGraphNode.reparent` as it affects the parent map: the parent
entry of the bone is replaced by the new parent. -/
def reparentBone (parents : List (String × Option String)) (bone : String)
    (newParent : Option String) : List (String × Option String) :=
  parents.map (fun p => if p.1 == bone then (p.1, newParent) else p)

/-- One iteration of `_process_deferred_constraints`: if the target object was
processed into a scene-graph node the bone is reparented to that node,
otherwise a warning is logged and the bone is left where it is. The function
is total: an unresolved target never raises. -/
def process_deferred_constraint (processed : List (String × String))
    (st : DeferredResolutionState) (entry : String × String) :
    DeferredResolutionState :=
  match lookupProcessed processed entry.2 with
  | some targetNode =>
    { st with parents := reparentBone st.parents entry.1 (some targetNode) }
  | none =>
    { st with warnings :=
        st.warnings ++ ["Target " ++ entry.2 ++ " is not processed or not in export list. Skipping."] }

/-- `_process_deferred_constraints`: drains the whole deferred-constraint
queue in order. -/
def process_deferred_constraints (processed : List (String × String))
    (deferred : List (String × String)) (st : DeferredResolutionState) :
    DeferredResolutionState :=
  deferred.foldl (process_deferred_constraint processed) st

/-! ## Animation keyframes (`animation.py`, `Keyframes` / `Clip`) -/

/-- Python `str.endswith(t)` on `s`: whether `t` is a suffix of `s`. -/
def pyEndsWith (s t : String) : Bool := t.data.isSuffixOf s.data

/-- Python `needle in hay` substring containment. -/
def pyContainsSub (needle hay : String) : Bool :=
  (List.range (hay.data.length + 1)).any (fun i => needle.data.isPrefixOf (hay.data.drop i))

/-- Python `int(x)` on a float/rational: truncation toward zero. -/
def pyInt (q : ℚ) : ℤ := q.num.tdiv q.den

/-- A `bpy.types.FCurve` as read by the animation exporter: its RNA data path
and the frame numbers (`kp.co.x`) of its keyframe points. -/
structure FCurve where
  data_path : String
  keyframe_points : List ℚ
deriving DecidableEq

/-- `Keyframes._filter_fcurves`: for a bone track, keep only the f-curves
whose data path addresses the pose path of that bone; otherwise all curves of the
channelbag. -/
def filter_fcurves (is_bone : Bool) (bone_name : String)
    (channelbag : List FCurve) : List FCurve :=
  if is_bone then
    channelbag.filter (fun fc =>
      pyContainsSub ("pose.bones[\"" ++ bone_name ++ "\"]") fc.data_path)
  else channelbag

/-- The `valid_paths` tuple of `Keyframes._needs_baking`. -/
def valid_paths : List String :=
  ["location", "rotation_euler", "rotation_quaternion", "scale"]

/-- `Keyframes._needs_baking`: true if any f-curve with a non-empty data path
is not a basic transform path (location, rotation, scale). -/
def needs_baking (fcurves : List FCurve) : Bool :=
  fcurves.any (fun fc =>
    fc.data_path != "" && !(valid_paths.any (fun v => pyEndsWith fc.data_path v)))

/-- The native-curve part of `Keyframes.has_translation`. -/
def has_translation_curves (fcurves : List FCurve) : Bool :=
  fcurves.any (fun fc => pyEndsWith fc.data_path "location")

/-- The native-curve part of `Keyframes.has_rotation` (`endswith` on the
tuple `("rotation_euler", "rotation_quaternion")`). -/
def has_rotation_curves (fcurves : List FCurve) : Bool :=
  fcurves.any (fun fc =>
    pyEndsWith fc.data_path "rotation_euler" ||
      pyEndsWith fc.data_path "rotation_quaternion")

/-- The native-curve part of `Keyframes.has_scale`. -/
def has_scale_curves (fcurves : List FCurve) : Bool :=
  fcurves.any (fun fc => pyEndsWith fc.data_path "scale")

/-- The frame list iterated by `Keyframes._generate_keyframes`: every integer
frame of `range(start_frame, end_frame + 1)` when baking, otherwise the
sorted set of native keyframe frame numbers. -/
def keyframe_list_of (nb : Bool) (start_frame end_frame : ℤ)
    (fcurves : List FCurve) : List ℚ :=
  if nb then
    (List.range (end_frame - start_frame + 1).toNat).map
      (fun i : ℕ => ((start_frame + i : ℤ) : ℚ))
  else
    pySorted (fun a b => decide (a < b))
      ((fcurves.flatMap (fun fc => fc.keyframe_points)).dedup)

/-- One emitted `Keyframe` element: its `time` attribute in milliseconds, the
integer frame passed to `scene.frame_set`, and which of the three channel
attributes are written (the numeric channel payload, a decomposition of the
sampled matrices, is not needed by any claim). -/
structure Keyframe where
  time : ℚ
  frame_set_to : ℤ
  translation : Bool
  rotation : Bool
  scale : Bool
deriving DecidableEq

/-- One `Keyframes` track as built by `Keyframes.__init__` and
`_generate_keyframes`. -/
structure KeyframesTrack where
  node_id : ℕ
  needs_baking : Bool
  has_translation : Bool
  has_rotation : Bool
  has_scale : Bool
  keyframes : List Keyframe
deriving DecidableEq

/-- `Keyframes.__init__` followed by `_generate_keyframes`: filters the
channelbag, decides baking and channel presence, and emits one keyframe per
selected frame with `time = (frame - start_frame) / fps * 1000`. -/
def mkKeyframes (fps : ℚ) (node_id : ℕ) (is_bone : Bool) (bone_name : String)
    (channelbag : List FCurve) (start_frame end_frame : ℤ) : KeyframesTrack :=
  let fcurves := filter_fcurves is_bone bone_name channelbag
  let nb := needs_baking fcurves
  let hasT := has_translation_curves fcurves || nb
  let hasR := has_rotation_curves fcurves || nb
  let hasS := has_scale_curves fcurves || nb
  let frames := keyframe_list_of nb start_frame end_frame fcurves
  { node_id := node_id
    needs_baking := nb
    has_translation := hasT
    has_rotation := hasR
    has_scale := hasS
    keyframes := frames.map (fun f =>
      { time := ((f - (start_frame : ℚ)) / fps) * 1000
        frame_set_to := pyInt f
        translation := hasT
        rotation := hasR
        scale := hasS }) }

/-- `Keyframes.is_empty`: `not self.xml_element` is true exactly when the
`Keyframes` element has no child `Keyframe` elements. -/
def track_is_empty (t : KeyframesTrack) : Bool := t.keyframes.isEmpty

/-- One `(node, slot)` pair as `Clip._generate_clip` sees it: the channelbag
lookup failed, the node is an armature (one bone track per bone found in
`processed_objects`, each `(bone node id, bone name)`), or an ordinary node. -/
inductive NodeSlotEntry where
  | noChannelbag : NodeSlotEntry
  | armature (bones : List (ℕ × String)) (channelbag : List FCurve) : NodeSlotEntry
  | plain (node_id : ℕ) (channelbag : List FCurve) : NodeSlotEntry
deriving DecidableEq

/-- The `Keyframes` elements appended to the clip by `Clip._generate_clip`:
entries without a channelbag are skipped, armatures contribute one track per
processed bone, and every track with `is_empty` true is dropped. -/
def clip_tracks (fps : ℚ) (start_frame end_frame : ℤ) :
    List NodeSlotEntry → List KeyframesTrack
  | [] => []
  | NodeSlotEntry.noChannelbag :: rest => clip_tracks fps start_frame end_frame rest
  | NodeSlotEntry.armature bones bag :: rest =>
    (bones.map (fun b => mkKeyframes fps b.1 true b.2 bag start_frame end_frame)).filter
      (fun t => !track_is_empty t) ++ clip_tracks fps start_frame end_frame rest
  | NodeSlotEntry.plain node_id bag :: rest =>
    (let t := mkKeyframes fps node_id false "" bag start_frame end_frame
     if track_is_empty t then [] else [t]) ++ clip_tracks fps start_frame end_frame rest

/-- The `Clip` element: `duration` in ms, the appended `Keyframes` children
and the `count` attribute set to `len(self.xml_element)`, the number of
children actually appended. -/
structure ClipData where
  duration : ℚ
  count : ℕ
  tracks : List KeyframesTrack
deriving DecidableEq

/-- `Clip._generate_clip`. -/
def generate_clip (fps : ℚ) (start_frame end_frame : ℤ)
    (entries : List NodeSlotEntry) : ClipData :=
  let ts := clip_tracks fps start_frame end_frame entries
  { duration := (((end_frame : ℚ) - (start_frame : ℚ)) / fps) * 1000
    count := ts.length
    tracks := ts }

/-! ## Scene state mutated by animation baking (`animation.py`,
`Animation._temporary_unhide_objects` and `Keyframes._generate_keyframe`) -/

/-- The shared global Blender scene state touched by baking: the current
evaluation frame and the per-object viewport-visibility flags. -/
structure SceneState where
  frame : ℤ
  hide_viewport : List (String × Bool)
deriving DecidableEq

/-- `scene.frame_set(frame)`. -/
def frame_set (s : SceneState) (f : ℤ) : SceneState := { s with frame := f }

/-- Assignment `obj.hide_viewport = v`: updates the existing entry, or
records the object if it was not tracked yet. -/
def setHideList : List (String × Bool) → String → Bool → List (String × Bool)
  | [], o, v => [(o, v)]
  | p :: ps, o, v => if p.1 == o then (p.1, v) :: ps else p :: setHideList ps o v

def setHide (s : SceneState) (o : String) (v : Bool) : SceneState :=
  { s with hide_viewport := setHideList s.hide_viewport o v }

/-- Read of `obj.hide_viewport` (`false` for objects never tracked). -/
def getHide (s : SceneState) (o : String) : Bool :=
  ((s.hide_viewport.find? (fun p => p.1 == o)).map (fun p => p.2)).getD false

/-- The frame-setting effect of the sampling loop: `_generate_keyframe` calls
`scene.frame_set` once per emitted keyframe. `failAfter = some k` injects an
exception that aborts the bake after `k` samples (modelling an arbitrary
error mid-bake); the returned flag is false when the body raised. -/
def sample_frames : List ℤ → Option ℕ → SceneState → Bool × SceneState
  | [], _, s => (true, s)
  | _ :: _, some 0, s => (false, s)
  | f :: fs, some (k + 1), s => sample_frames fs (some k) (frame_set s f)
  | f :: fs, none, s => sample_frames fs none (frame_set s f)

/-- `Animation._temporary_unhide_objects`: record the original
`hide_viewport` of every affected object, force them all visible, run the
body, and restore the recorded flags in a `finally` block (so also when the
body raised, propagating the failure flag). -/
def temporary_unhide_objects (affected : List String)
    (body : SceneState → Bool × SceneState) (s : SceneState) : Bool × SceneState :=
  let original_hide_state := affected.map (fun o => (o, getHide s o))
  let s1 := affected.foldl (fun st o => setHide st o false) s
  let r := body s1
  (r.1, original_hide_state.foldl (fun st p => setHide st p.1 p.2) r.2)

/-- `Animation.__init__`: the whole animation export runs inside
`_temporary_unhide_objects`, sampling the given frames. -/
def run_animation_export (affected : List String) (frames : List ℤ)
    (failAfter : Option ℕ) (s : SceneState) : Bool × SceneState :=
  temporary_unhide_objects affected (sample_frames frames failAfter) s

/-! ## Scene-graph traversal (`exporter.py`, `_add_object_to_i3d`) -/

/-- The Blender object types the match statement in `_add_object_to_i3d`
distinguishes; `GPENCIL` stands for any type without a node variant, on which
the wildcard case raises `NotImplementedError`. -/
inductive ObjType where
  | MESH : ObjType
  | ARMATURE : ObjType
  | EMPTY : ObjType
  | LIGHT : ObjType
  | CAMERA : ObjType
  | CURVE : ObjType
  | GPENCIL : ObjType
deriving DecidableEq

/-- The feature toggles consulted by the MESH branch. -/
inductive Feature where
  | MERGE_CHILDREN : Feature
  | MERGE_GROUPS : Feature
  | SKINNED_MESHES : Feature
deriving DecidableEq

/-- The exporter settings read by `_add_object_to_i3d`. -/
structure ExportSettings where
  object_types_to_export : List ObjType
  features_to_export : List Feature
deriving DecidableEq

/-- A Blender object as `_add_object_to_i3d` reads it: name, type, the
`i3d_attributes.exclude_from_export` flag, `i3d_merge_children.enabled`,
`i3d_merge_group_index`, the first armature modifier (`some none` = modifier
with no armature object assigned, `some (some a)` = modifier referencing
armature `a`), `i3d_attributes.collapse_armature`, and the child objects.
Collections, collection-instance empties and the restricted selection-set
mode use separate code paths outside this modelled fragment. -/
inductive BObj where
  | mk (name : String) (objType : ObjType) (exclude_from_export : Bool)
      (merge_children_enabled : Bool) (merge_group_index : ℤ)
      (armature_modifier : Option (Option String))
      (collapse_armature : Bool) (children : List BObj) : BObj

def BObj.name : BObj → String
  | BObj.mk n _ _ _ _ _ _ _ => n

def BObj.objType : BObj → ObjType
  | BObj.mk _ t _ _ _ _ _ _ => t

def BObj.exclude_from_export : BObj → Bool
  | BObj.mk _ _ e _ _ _ _ _ => e

def BObj.merge_children_enabled : BObj → Bool
  | BObj.mk _ _ _ m _ _ _ _ => m

def BObj.merge_group_index : BObj → ℤ
  | BObj.mk _ _ _ _ i _ _ _ => i

def BObj.armature_modifier : BObj → Option (Option String)
  | BObj.mk _ _ _ _ _ a _ _ => a

def BObj.collapse_armature : BObj → Bool
  | BObj.mk _ _ _ _ _ _ c _ => c

def BObj.children : BObj → List BObj
  | BObj.mk _ _ _ _ _ _ _ c => c

/-- The node variants instantiated by `_add_object_to_i3d`. -/
inductive NodeKind where
  | transformGroup : NodeKind
  | light : NodeKind
  | camera : NodeKind
  | shape : NodeKind
  | mergeChildrenShape : NodeKind
  | mergeGroupShape : NodeKind
  | skinnedMeshShape : NodeKind
  | armatureRoot : NodeKind
deriving DecidableEq

/-- One node of the produced scene graph: name, variant, and the name of the
node it is attached to (`none` = scene root). -/
structure ExpNode where
  name : String
  kind : NodeKind
  parent : Option String
deriving DecidableEq

/-- The Python exceptions the modelled fragment can raise. -/
inductive PyErr where
  | unboundLocalError : PyErr
  | notImplementedError : PyErr
deriving DecidableEq

/-- The reference to the scene-graph node used as parent during traversal:
its name, whether it is a collapsed armature node (`SkinnedMeshRootNode` with
`is_collapsed`), and for a collapsed armature the name of the node the
armature itself is attached to. -/
structure ParentNodeRef where
  name : String
  collapsed_armature : Bool
  armature_parent : Option String
deriving DecidableEq

/-- The MESH arm of the match in `_add_object_to_i3d` (lines 233-276): the
`if/elif` chain resolving MergeChildren, MergeGroup, SkinnedMesh or plain
Shape. Returns the value of the Python local `node` (`none` when no branch
assigned it: the MergeChildren fall-through and the two skinned-mesh warning
branches leave `node` unbound) and whether the branch returned early
(MergeChildren consumed its children as merged geometry). -/
def resolve_mesh_node (s : ExportSettings) (all_objects : List String)
    (obj : BObj) : Option NodeKind × Bool :=
  if s.features_to_export.contains Feature.MERGE_CHILDREN
      && obj.merge_children_enabled then
    if !obj.children.isEmpty
        && obj.children.any (fun c => c.objType == ObjType.MESH) then
      (some NodeKind.mergeChildrenShape, true)
    else
      (none, false)
  else if s.features_to_export.contains Feature.MERGE_GROUPS
      && decide (obj.merge_group_index > -1) then
    (some NodeKind.mergeGroupShape, false)
  else if s.features_to_export.contains Feature.SKINNED_MESHES
      && s.object_types_to_export.contains ObjType.ARMATURE
      && obj.armature_modifier.isSome then
    match obj.armature_modifier with
    | some (some armName) =>
      if all_objects.contains armName then (some NodeKind.skinnedMeshShape, false)
      else (none, false)
    | _ => (none, false)
  else
    (some NodeKind.shape, false)

theorem sizeOf_perm_eq {α : Type} [SizeOf α] {l1 l2 : List α} (h : l1.Perm l2) :
    sizeOf l1 = sizeOf l2 := by
  induction h with
  | nil => rfl
  | cons x _ ih => simp [ih]
  | swap x y l => simp; omega
  | trans _ _ ih1 ih2 => omega

theorem sizeOf_children_lt (obj : BObj) : sizeOf obj.children < sizeOf obj := by
  cases obj
  simp [BObj.children]

/-- The collapsed-armature parent redirect of `_add_object_to_i3d` (lines
224-229): when the parent node is a collapsed armature, the object is
attached to the parent of the armature instead; `none` attaches to the scene
root. -/
def parent_attach : Option ParentNodeRef → Option String
  | none => none
  | some p => if p.collapsed_armature then p.armature_parent else some p.name

mutual
/-- `_add_object_to_i3d` for objects (the collection branch and the
selection-set child enumeration are separate code paths outside this
fragment): the exclusion checks, the collapsed-armature parent redirect, the
per-type node dispatch, and the recursion into the outliner-sorted children.
Returns the scene-graph nodes produced for this subtree, or the Python
exception that aborted the traversal. -/
def add_object_to_i3d (s : ExportSettings) (all_objects : List String)
    (parent : Option ParentNodeRef) (obj : BObj) : Except PyErr (List ExpNode) :=
  if obj.exclude_from_export then Except.ok []
  else if !(s.object_types_to_export.contains obj.objType) then Except.ok []
  else
    let parentAttach : Option String := parent_attach parent
    let dispatch : Except PyErr (Option NodeKind × Bool) :=
      match obj.objType with
      | ObjType.MESH => Except.ok (resolve_mesh_node s all_objects obj)
      | ObjType.ARMATURE => Except.ok (some NodeKind.armatureRoot, false)
      | ObjType.EMPTY => Except.ok (some NodeKind.transformGroup, false)
      | ObjType.LIGHT => Except.ok (some NodeKind.light, false)
      | ObjType.CAMERA => Except.ok (some NodeKind.camera, false)
      | ObjType.CURVE => Except.ok (some NodeKind.shape, false)
      | ObjType.GPENCIL => Except.error PyErr.notImplementedError
    match dispatch with
    | Except.error e => Except.error e
    | Except.ok (nodeVar, early) =>
      if early then
        Except.ok [{ name := obj.name, kind := NodeKind.mergeChildrenShape,
                     parent := parentAttach }]
      else
        match nodeVar with
        | none =>
          if obj.children.isEmpty then Except.ok []
          else Except.error PyErr.unboundLocalError
        | some k =>
          let isCollapsedArm := k == NodeKind.armatureRoot && obj.collapse_armature
          let thisRef : ParentNodeRef :=
            { name := obj.name, collapsed_armature := isCollapsedArm,
              armature_parent := parentAttach }
          match add_children s all_objects (some thisRef)
            (sort_by_outliner_ordering BObj.name obj.children) with
          | Except.error e => Except.error e
          | Except.ok childNodes =>
            Except.ok
              ((if isCollapsedArm then []
                else [{ name := obj.name, kind := k, parent := parentAttach }]) ++
                childNodes)
termination_by sizeOf obj
decreasing_by
  calc sizeOf (sort_by_outliner_ordering BObj.name obj.children)
      = sizeOf obj.children := sizeOf_perm_eq (sort_by_outliner_ordering_perm _ _)
    _ < sizeOf obj := sizeOf_children_lt obj

/-- The child loop at the end of `_add_object_to_i3d`: each child is
processed in order with the node of this object as parent; a raised exception
propagates. -/
def add_children (s : ExportSettings) (all_objects : List String)
    (parent : Option ParentNodeRef) : List BObj → Except PyErr (List ExpNode)
  | [] => Except.ok []
  | c :: rest =>
    match add_object_to_i3d s all_objects parent c with
    | Except.error e => Except.error e
    | Except.ok ns =>
      match add_children s all_objects parent rest with
      | Except.error e => Except.error e
      | Except.ok ms => Except.ok (ns ++ ms)
termination_by l => sizeOf l
end

/-! ## The export entry point (`exporter.py`, `export_blend_to_i3d`) -/

/-- Whether the body of the big `try` block (the export itself) completes or
raises an exception caught by the top-level handler. -/
inductive ExportBody where
  | completes : ExportBody
  | raises : ExportBody
deriving DecidableEq

/-- The observable contents of the `export_data` dict returned by
`export_blend_to_i3d`: the value of the `success` key and whether the `time`
(elapsed time) key was recorded. -/
structure ExportReturn where
  success : Bool
  time_recorded : Bool
deriving DecidableEq

/-- The control flow of `export_blend_to_i3d` around the source-collection lookup
(lines 72-129): when `operator.collection` names a collection that does not
exist, the operator reports an error and the function returns `None` from
inside the `try` block, so neither the `success`/`time` keys nor the
log-file-handler cleanup after the try statement run (second component
false). On every other path, including a raised exception, the returned
dict has `success` (false exactly on the exception path), `time` recorded,
and the handler cleanup runs. -/
def export_blend_to_i3d (operator_collection : Option String)
    (data_collections : List String) (body : ExportBody) :
    Option ExportReturn × Bool :=
  match operator_collection with
  | some c =>
    if data_collections.contains c then
      (some { success := body == ExportBody.completes, time_recorded := true }, true)
    else
      (none, false)
  | none =>
    (some { success := body == ExportBody.completes, time_recorded := true }, true)

/-! ## Claims -/

/-- Claim C7: every queued deferred child-of constraint entry is either
resolved by reparenting the bone node to the now-existing scene-graph node of
the target (when the target object was processed), or a warning about the
unresolved target is logged and the bone node is left at its structural
position; the step is a total function, so resolution never raises for an
unresolved target, and `process_deferred_constraints` drains the whole queue
by folding this step over every entry. -/
theorem claim_C7 (processed : List (String × String))
    (st : DeferredResolutionState) (entry : String × String)
    (deferred : List (String × String)) :
    ((∃ targetNode, lookupProcessed processed entry.2 = some targetNode ∧
        process_deferred_constraint processed st entry =
          { parents := reparentBone st.parents entry.1 (some targetNode),
            warnings := st.warnings }) ∨
      (lookupProcessed processed entry.2 = none ∧
        (process_deferred_constraint processed st entry).parents = st.parents ∧
        (process_deferred_constraint processed st entry).warnings = st.warnings ++
          ["Target " ++ entry.2 ++ " is not processed or not in export list. Skipping."])) ∧
    process_deferred_constraints processed deferred st =
      deferred.foldl (process_deferred_constraint processed) st := by
  constructor
  · cases h : lookupProcessed processed entry.2 with
    | some t =>
      exact Or.inl ⟨t, rfl, by simp [process_deferred_constraint, h]⟩
    | none =>
      refine Or.inr ⟨rfl, ?_, ?_⟩ <;> simp [process_deferred_constraint, h]
  · rfl

/-- Claim C9: when the operator names a source collection that does not
exist, `export_blend_to_i3d` reports an error and returns `None` instead of
the usual result dict — no `success` key, no `time` key, and the log-file
handler cleanup after the try block is skipped — unlike every exception
path, which returns a dict with `success = False`, elapsed time recorded and
the cleanup performed. -/
theorem claim_C9 (cols : List String) (c : String) (body : ExportBody) :
    (cols.contains c = false →
      export_blend_to_i3d (some c) cols body = (none, false)) ∧
    (cols.contains c = true →
      export_blend_to_i3d (some c) cols body =
        (some { success := body == ExportBody.completes, time_recorded := true },
          true)) ∧
    export_blend_to_i3d none cols ExportBody.raises =
      (some { success := false, time_recorded := true }, true) ∧
    export_blend_to_i3d none cols ExportBody.completes =
      (some { success := true, time_recorded := true }, true) := by
  refine ⟨fun h => ?_, fun h => ?_, rfl, rfl⟩ <;> simp only [export_blend_to_i3d, h] <;> simp

/-- Witness for C9 at concrete inputs: a missing collection yields `None`
with the cleanup skipped, and an exception inside the try block yields a dict
with `success = False`, time recorded and the cleanup performed. -/
theorem claim_C9_witness :
    export_blend_to_i3d (some "missing") ["main"] ExportBody.completes =
      (none, false) ∧
    export_blend_to_i3d (some "main") ["main"] ExportBody.raises =
      (some { success := false, time_recorded := true }, true) := by
  constructor
  · exact (claim_C9 ["main"] "missing" ExportBody.completes).1 (by decide)
  · have h := (claim_C9 ["main"] "main" ExportBody.raises).2.1 (by decide)
    simpa using h

/-- Claim C3 (amended): for a bone with a resolved child-of constraint to an
external node (parent set to the scene node of the target, `is_child_of`
true, no deferred target), the computed local matrix equals
`(target world, target basis)^-1 * (armature world, target basis) *
(bone-in-armature-space matrix, forward-only converted)`; consequently, when
the target world matrix AND the armature world matrix are both the identity,
the local equals the forward-converted bone matrix (an identity target alone
does not suffice, see the counterexample). -/
theorem claim_C3 (conv : Mat4) (st : BoneState) (tw : Mat4)
    (hp : st.parent = BoneParent.sceneNode tw) (hc : st.is_child_of = true)
    (hd : st.deferred_target_world = none) :
    transform_for_conversion conv st =
      some (inverted_safe (to_i3d conv tw) * to_i3d conv st.armature_matrix_world *
        to_i3d_forward conv st.matrix_local) ∧
    (tw = 1 → st.armature_matrix_world = 1 → conv.det ≠ 0 →
      transform_for_conversion conv st =
        some (to_i3d_forward conv st.matrix_local)) := by
  have h1 : transform_for_conversion conv st =
      some (inverted_safe (to_i3d conv tw) * to_i3d conv st.armature_matrix_world *
        to_i3d_forward conv st.matrix_local) := by
    simp [transform_for_conversion, get_child_of_transform, hp, hc, hd]
  refine ⟨h1, fun h2 h3 h4 => ?_⟩
  rw [h1, h2, h3, to_i3d_one_right conv h4, inverted_safe_one, one_mul, one_mul]

/-- The claim C3 counterexample input: a resolved child-of bone whose target
world matrix is the identity but whose armature world matrix is a
non-identity diagonal scale. -/
def c3Bone : BoneState :=
  { matrix_local := 1, parent := BoneParent.sceneNode 1, is_child_of := true,
    deferred_target_world := none, root_is_collapsed := false,
    armature_matrix_world := dScale }

/-- Claim C3 counterexample: with an identity target world matrix (and
identity conversion) the computed local is the armature world matrix times
the converted bone matrix, which differs from the forward-converted bone
matrix whenever the armature world matrix is not the identity — refuting the
final clause of the claim as stated. -/
theorem claim_C3_counterexample :
    transform_for_conversion 1 c3Bone = some dScale ∧
    transform_for_conversion 1 c3Bone ≠
      some (to_i3d_forward 1 c3Bone.matrix_local) := by
  have h1 : transform_for_conversion 1 c3Bone = some dScale := by
    simp [transform_for_conversion, get_child_of_transform, c3Bone,
      to_i3d_conv_one, to_i3d_forward_conv_one, inverted_safe_one]
  refine ⟨h1, ?_⟩
  have h2 : to_i3d_forward 1 c3Bone.matrix_local = 1 := by
    simp [c3Bone, to_i3d_forward_conv_one]
  rw [h1, h2]
  intro hcontra
  exact dScale_ne_one (Option.some.inj hcontra)

/-- The claim C3 witness input: a resolved child-of bone with identity target
world and identity armature world matrices. -/
def c3WitnessBone : BoneState :=
  { matrix_local := dScale, parent := BoneParent.sceneNode 1, is_child_of := true,
    deferred_target_world := none, root_is_collapsed := false,
    armature_matrix_world := 1 }

/-- Witness for C3 at a concrete input: with identity target and armature
world matrices the local is exactly the forward-converted bone matrix. -/
theorem claim_C3_witness :
    transform_for_conversion 1 c3WitnessBone =
      some (to_i3d_forward 1 c3WitnessBone.matrix_local) :=
  (claim_C3 1 c3WitnessBone 1 rfl rfl rfl).2 rfl rfl
    (by rw [Matrix.det_one]; norm_num)

/-- Claim C10 (amended): a bone whose child-of target is in the export list
but was never processed (deferred target still set after deferred resolution
failed) keeps its structural parent in the graph — the failed resolution step
leaves the parent map untouched — and, provided its structural parent is not
itself a bone node, its local transform is computed from the world matrix of
the deferred target object via `target_world^-1 * armature_world *
bone_local`, not from the structural parent it remains under (for a bone
whose structural parent is a bone node, the bone-parent case takes priority,
see the counterexample). -/
theorem claim_C10 (conv : Mat4) (st : BoneState) (tw : Mat4)
    (hd : st.deferred_target_world = some tw)
    (hp : ∀ p, st.parent ≠ BoneParent.boneNode p)
    (processed : List (String × String)) (drs : DeferredResolutionState)
    (bone target : String) (hl : lookupProcessed processed target = none) :
    transform_for_conversion conv st =
      some (inverted_safe (to_i3d conv tw) * to_i3d conv st.armature_matrix_world *
        to_i3d_forward conv st.matrix_local) ∧
    (process_deferred_constraint processed drs (bone, target)).parents =
      drs.parents := by
  constructor
  · cases hpar : st.parent with
    | boneNode p => exact absurd hpar (hp p)
    | sceneRoot =>
      simp [transform_for_conversion, get_child_of_transform, hpar, hd]
    | sceneNode w =>
      simp [transform_for_conversion, get_child_of_transform, hpar, hd]
  · simp [process_deferred_constraint, hl]

/-- The claim C10 counterexample input: a bone with a deferred child-of
target whose structural parent is another bone node. -/
def c10Bone : BoneState :=
  { matrix_local := 1, parent := BoneParent.boneNode 1, is_child_of := true,
    deferred_target_world := some dScale, root_is_collapsed := false,
    armature_matrix_world := 1 }

/-- Claim C10 counterexample: for a bone-parented bone with a deferred
child-of target, `_transform_for_conversion` takes the bone-parent case and
returns `parent_local^-1 * matrix_local = 1`, while the deferred-target
formula would give `inverted_safe dScale ≠ 1`; the local transform is not
computed relative to the world matrix of the deferred target here, refuting
the claim as universally stated. -/
theorem claim_C10_counterexample :
    transform_for_conversion 1 c10Bone = some 1 ∧
    get_child_of_transform 1 c10Bone (to_i3d_forward 1 c10Bone.matrix_local) =
      some (inverted_safe dScale) ∧
    transform_for_conversion 1 c10Bone ≠
      get_child_of_transform 1 c10Bone (to_i3d_forward 1 c10Bone.matrix_local) := by
  have h1 : transform_for_conversion 1 c10Bone = some 1 := by
    simp [transform_for_conversion, c10Bone, inverted_safe_one]
  have h2 : get_child_of_transform 1 c10Bone
      (to_i3d_forward 1 c10Bone.matrix_local) = some (inverted_safe dScale) := by
    simp [get_child_of_transform, c10Bone, to_i3d_conv_one, to_i3d_forward_conv_one,
      inverted_safe_one]
  refine ⟨h1, h2, ?_⟩
  rw [h1, h2]
  intro h
  exact inverted_safe_dScale_ne_one (Option.some.injEq _ _ ▸ h).symm

/-- The claim C10 witness input: a deferred child-of bone at the scene root
(structural parent is not a bone node). -/
def c10WitnessBone : BoneState :=
  { matrix_local := dScale, parent := BoneParent.sceneRoot, is_child_of := true,
    deferred_target_world := some 1, root_is_collapsed := true,
    armature_matrix_world := 1 }

/-- Witness for C10 at concrete inputs: the transform of a scene-root bone
with a deferred target follows the deferred-target formula, and a failed
deferred resolution leaves the parent map unchanged. -/
theorem claim_C10_witness :
    transform_for_conversion 1 c10WitnessBone =
      some (inverted_safe (to_i3d 1 1) * to_i3d 1 1 *
        to_i3d_forward 1 c10WitnessBone.matrix_local) ∧
    (process_deferred_constraint []
      { parents := [("bonea", some "armx")], warnings := [] }
      ("bonea", "tgt")).parents = [("bonea", some "armx")] := by
  have h := claim_C10 1 c10WitnessBone 1 rfl
    (fun p hq => by simp [c10WitnessBone] at hq) []
    { parents := [("bonea", some "armx")], warnings := [] } "bonea" "tgt" rfl
  exact ⟨h.1, h.2⟩

theorem clip_tracks_all_nonempty (fps : ℚ) (sf ef : ℤ) (entries : List NodeSlotEntry) :
    (clip_tracks fps sf ef entries).all (fun t => !(t.keyframes.isEmpty)) = true := by
  induction entries with
  | nil => rfl
  | cons e rest ih =>
    cases e with
    | noChannelbag => simpa [clip_tracks] using ih
    | armature bones bag =>
      rw [clip_tracks, List.all_append]
      refine (Bool.and_eq_true _ _).mpr ⟨?_, ih⟩
      rw [List.all_eq_true]
      intro t ht
      have h2 := (List.mem_filter.mp ht).2
      simpa [track_is_empty] using h2
    | plain node_id bag =>
      rw [clip_tracks, List.all_append]
      refine (Bool.and_eq_true _ _).mpr ⟨?_, ih⟩
      by_cases he : track_is_empty (mkKeyframes fps node_id false "" bag sf ef)
      · simp [he]
      · simp only [he, if_false, List.all_cons, List.all_nil, Bool.and_true]
        simpa [track_is_empty] using he

/-- Claim C8: a keyframe track with zero keyframes is never written: every
Keyframes element appended to the Clip has at least one child Keyframe
(`all` of the appended tracks are non-empty), and the count attribute of the
Clip equals the number of Keyframes tracks actually appended. -/
theorem claim_C8 (fps : ℚ) (sf ef : ℤ) (entries : List NodeSlotEntry) :
    (generate_clip fps sf ef entries).tracks.all
      (fun t => !(t.keyframes.isEmpty)) = true ∧
    (generate_clip fps sf ef entries).count =
      (generate_clip fps sf ef entries).tracks.length :=
  ⟨clip_tracks_all_nonempty fps sf ef entries, rfl⟩

/-- Claim C4: `needs_baking` is true exactly when some selected f-curve with
a non-empty data path targets a property other than
location / rotation_euler / rotation_quaternion / scale; when baking is
needed, the track is sampled at every integer frame of
`[start_frame, end_frame]` instead of at native keyframe times, and all
three channel-presence flags are forced true, so every baked keyframe
carries all three channels even for channels without native curves. -/
theorem claim_C4 (fps : ℚ) (node_id : ℕ) (is_bone : Bool) (bone_name : String)
    (channelbag : List FCurve) (sf ef : ℤ) :
    ((mkKeyframes fps node_id is_bone bone_name channelbag sf ef).needs_baking = true ↔
      ∃ fc ∈ filter_fcurves is_bone bone_name channelbag, fc.data_path ≠ "" ∧
        ∀ v ∈ valid_paths, pyEndsWith fc.data_path v = false) ∧
    ((mkKeyframes fps node_id is_bone bone_name channelbag sf ef).needs_baking = true →
      (mkKeyframes fps node_id is_bone bone_name channelbag sf ef).has_translation = true ∧
      (mkKeyframes fps node_id is_bone bone_name channelbag sf ef).has_rotation = true ∧
      (mkKeyframes fps node_id is_bone bone_name channelbag sf ef).has_scale = true ∧
      (mkKeyframes fps node_id is_bone bone_name channelbag sf ef).keyframes =
        ((List.range (ef - sf + 1).toNat).map (fun i : ℕ => ((sf + i : ℤ) : ℚ))).map
          (fun f => { time := ((f - (sf : ℚ)) / fps) * 1000, frame_set_to := pyInt f,
                      translation := true, rotation := true, scale := true })) := by
  constructor
  · rw [show (mkKeyframes fps node_id is_bone bone_name channelbag sf ef).needs_baking =
      needs_baking (filter_fcurves is_bone bone_name channelbag) from rfl]
    rw [needs_baking, List.any_eq_true]
    constructor
    · rintro ⟨fc, hmem, hfc⟩
      rw [Bool.and_eq_true, bne_iff_ne] at hfc
      refine ⟨fc, hmem, hfc.1, ?_⟩
      intro v hv
      rcases hfc with ⟨-, hall⟩
      rw [Bool.not_eq_true', List.any_eq_false] at hall
      exact Bool.not_eq_true _ ▸ (hall v hv)
    · rintro ⟨fc, hmem, hne, hall⟩
      refine ⟨fc, hmem, ?_⟩
      rw [Bool.and_eq_true, bne_iff_ne]
      refine ⟨hne, ?_⟩
      rw [Bool.not_eq_true', List.any_eq_false]
      intro v hv
      exact Bool.not_eq_true _ ▸ (hall v hv)
  · intro h
    have hnb : needs_baking (filter_fcurves is_bone bone_name channelbag) = true := h
    refine ⟨?_, ?_, ?_, ?_⟩ <;>
      simp [mkKeyframes, keyframe_list_of, hnb]

/-- The claim C4 witness channelbag: a custom-property curve plus a native
location curve. -/
def c4CustomCurve : FCurve := { data_path := "[\"customprop\"]", keyframe_points := [12] }

def c4LocationCurve : FCurve := { data_path := "location", keyframe_points := [10, 12] }

/-- Witness for C4 at a concrete input: one custom-property curve forces
baking for the whole track, all three channel flags, and integer-frame
sampling (3 keyframes for the range [10, 12]). -/
theorem claim_C4_witness :
    (mkKeyframes 30 7 false "" [c4CustomCurve, c4LocationCurve] 10 12).needs_baking = true ∧
    (mkKeyframes 30 7 false "" [c4CustomCurve, c4LocationCurve] 10 12).has_translation = true ∧
    (mkKeyframes 30 7 false "" [c4CustomCurve, c4LocationCurve] 10 12).has_rotation = true ∧
    (mkKeyframes 30 7 false "" [c4CustomCurve, c4LocationCurve] 10 12).has_scale = true ∧
    (mkKeyframes 30 7 false "" [c4CustomCurve, c4LocationCurve] 10 12).keyframes.length = 3 := by
  have hnb : (mkKeyframes 30 7 false "" [c4CustomCurve, c4LocationCurve] 10 12).needs_baking = true := by
    decide
  have h := (claim_C4 30 7 false "" [c4CustomCurve, c4LocationCurve] 10 12).2 hnb
  refine ⟨hnb, h.1, h.2.1, h.2.2.1, ?_⟩
  rw [h.2.2.2, List.length_map, List.length_map, List.length_range]
  decide

/-- Claim C5 (amended): the keyframe emitted for frame f carries time offset
`(f - start_frame) / fps * 1000` milliseconds, and the first emitted
keyframe of a track has time 0 whenever baking is active (sampling then
starts exactly at the clip start frame); for a native (non-baked) track the
first time is `(earliest native keyframe - start_frame) / fps * 1000`, which
is 0 only when the earliest native keyframe of the track coincides with the
clip start frame (see the counterexample). -/
theorem claim_C5 (fps : ℚ) (node_id : ℕ) (is_bone : Bool) (bone_name : String)
    (channelbag : List FCurve) (sf ef : ℤ) :
    (mkKeyframes fps node_id is_bone bone_name channelbag sf ef).keyframes.map
        (fun kf => kf.time) =
      (keyframe_list_of (needs_baking (filter_fcurves is_bone bone_name channelbag))
        sf ef (filter_fcurves is_bone bone_name channelbag)).map
        (fun f => ((f - (sf : ℚ)) / fps) * 1000) ∧
    ((mkKeyframes fps node_id is_bone bone_name channelbag sf ef).needs_baking = true →
      sf ≤ ef →
      ((mkKeyframes fps node_id is_bone bone_name channelbag sf ef).keyframes.head?).map
        (fun kf => kf.time) = some 0) := by
  constructor
  · simp [mkKeyframes, List.map_map]
  · intro hnb hle
    have hnb2 : needs_baking (filter_fcurves is_bone bone_name channelbag) = true := hnb
    have hpos : 0 < (ef - sf + 1).toNat := by omega
    obtain ⟨n, hn⟩ : ∃ n, (ef - sf + 1).toNat = n + 1 :=
      ⟨(ef - sf + 1).toNat - 1, by omega⟩
    simp only [mkKeyframes, keyframe_list_of, hnb2, if_true, hn]
    rw [List.range_succ_eq_map]
    simp

/-- The claim C5 counterexample f-curve: a single native location keyframe at
frame 15. -/
def c5Curve : FCurve := { data_path := "location", keyframe_points := [15] }

/-- Claim C5 counterexample: for an action range starting at frame 10 at
30 fps, a non-baked track whose only native keyframe sits at frame 15 emits
its first (and only) keyframe at 500/3 ms, not at 0 ms — the first emitted
keyframe time is not 0 for every track regardless of the start frame. -/
theorem claim_C5_counterexample :
    ((mkKeyframes 30 3 false "" [c5Curve] 10 40).keyframes.head?).map
      (fun kf => kf.time) = some (500 / 3) ∧
    (500 / 3 : ℚ) ≠ 0 := by
  have hnb : needs_baking [c5Curve] = false := by decide
  have hkl : keyframe_list_of false 10 40 [c5Curve] = [15] := by decide
  constructor
  · simp only [mkKeyframes, filter_fcurves, if_neg Bool.false_ne_true, hnb, hkl]
    simp only [List.map_cons, List.map_nil, List.head?_cons, Option.map_some]
    norm_num
  · norm_num

/-- The claim C5 witness channelbag: a custom-property curve forcing the
whole track to bake over the action range. -/
def c5WitnessCurve : FCurve := { data_path := "[\"wheelspin\"]", keyframe_points := [20] }

/-- Witness for C5 at a concrete input: a baked track over the range
[10, 40] emits its first keyframe at time 0. -/
theorem claim_C5_witness :
    ((mkKeyframes 30 4 false "" [c5WitnessCurve] 10 40).keyframes.head?).map
      (fun kf => kf.time) = some 0 :=
  (claim_C5 30 4 false "" [c5WitnessCurve] 10 40).2 (by decide) (by decide)

theorem sample_frames_hide (frames : List ℤ) (failAfter : Option ℕ) (s : SceneState) :
    (sample_frames frames failAfter s).2.hide_viewport = s.hide_viewport := by
  induction frames generalizing failAfter s with
  | nil => rfl
  | cons f fs ih =>
    cases failAfter with
    | none => simpa [sample_frames, frame_set] using ih none (frame_set s f)
    | some k =>
      cases k with
      | zero => rfl
      | succ k => simpa [sample_frames, frame_set] using ih (some k) (frame_set s f)

theorem sample_frames_none_frame (frames : List ℤ) (s : SceneState) :
    (sample_frames frames none s).2.frame = (frames.getLast?).getD s.frame := by
  induction frames generalizing s with
  | nil => rfl
  | cons f fs ih =>
    rw [sample_frames, ih (frame_set s f)]
    cases fs with
    | nil => rfl
    | cons g gs =>
      rw [List.getLast?_cons_cons, List.getLast?_eq_getLast (g :: gs) (by simp)]
      rfl

theorem find?_setHideList (l : List (String × Bool)) (o : String) (v : Bool)
    (x : String) :
    (setHideList l o v).find? (fun p => p.1 == x) =
      if x = o then some (o, v) else l.find? (fun p => p.1 == x) := by
  induction l with
  | nil =>
    by_cases h : x = o
    · rw [show setHideList [] o v = [(o, v)] from rfl, if_pos h,
        @List.find?_cons_of_pos _ (fun q : String × Bool => q.1 == x) (o, v) []
          (beq_iff_eq.mpr h.symm)]
    · rw [show setHideList [] o v = [(o, v)] from rfl, if_neg h,
        @List.find?_cons_of_neg _ (fun q : String × Bool => q.1 == x) (o, v) []
          (by simp only [beq_iff_eq]; exact fun hc => h hc.symm)]
  | cons p ps ih =>
    by_cases hpo : p.1 = o
    · have hrepl : setHideList (p :: ps) o v = (p.1, v) :: ps := by
        simp [setHideList, hpo]
      by_cases h : x = o
      · rw [hrepl, if_pos h,
          @List.find?_cons_of_pos _ (fun q : String × Bool => q.1 == x) (p.1, v) ps
            (beq_iff_eq.mpr (hpo.trans h.symm)), hpo]
      · rw [hrepl, if_neg h,
          @List.find?_cons_of_neg _ (fun q : String × Bool => q.1 == x) (p.1, v) ps
            (by simp only [beq_iff_eq]; exact fun hc => h (hc.symm.trans hpo)),
          @List.find?_cons_of_neg _ (fun q : String × Bool => q.1 == x) p ps
            (by simp only [beq_iff_eq]; exact fun hc => h (hc.symm.trans hpo))]
    · have hrepl : setHideList (p :: ps) o v = p :: setHideList ps o v := by
        simp [setHideList, hpo]
      by_cases hpx : p.1 = x
      · rw [hrepl,
          @List.find?_cons_of_pos _ (fun q : String × Bool => q.1 == x) p
            (setHideList ps o v) (beq_iff_eq.mpr hpx),
          if_neg (show ¬(x = o) from fun hc => hpo (hpx.trans hc)),
          @List.find?_cons_of_pos _ (fun q : String × Bool => q.1 == x) p ps
            (beq_iff_eq.mpr hpx)]
      · rw [hrepl,
          @List.find?_cons_of_neg _ (fun q : String × Bool => q.1 == x) p
            (setHideList ps o v) (by simp only [beq_iff_eq]; exact hpx), ih]
        by_cases h : x = o
        · rw [if_pos h, if_pos h]
        · rw [if_neg h, if_neg h,
            @List.find?_cons_of_neg _ (fun q : String × Bool => q.1 == x) p ps
              (by simp only [beq_iff_eq]; exact hpx)]

theorem getHide_setHide (s : SceneState) (o : String) (v : Bool) (x : String) :
    getHide (setHide s o v) x = if x = o then v else getHide s x := by
  simp only [getHide, setHide, find?_setHideList]
  by_cases h : x = o <;> simp [h]

theorem getHide_foldl_setHide_false (affected : List String) (s : SceneState)
    (x : String) :
    getHide (affected.foldl (fun st o => setHide st o false) s) x =
      if x ∈ affected then false else getHide s x := by
  induction affected generalizing s with
  | nil => simp
  | cons a rest ih =>
    simp only [List.foldl_cons]
    rw [ih (setHide s a false)]
    by_cases hx : x ∈ rest
    · simp [hx]
    · by_cases hxa : x = a
      · simp [hx, hxa, getHide_setHide]
      · simp [hx, hxa, getHide_setHide, List.mem_cons]

theorem getHide_foldl_restore (pairs : List (String × Bool)) (s0 : SceneState)
    (hp : ∀ p ∈ pairs, p.2 = getHide s0 p.1) (st : SceneState) (x : String) :
    getHide (pairs.foldl (fun acc p => setHide acc p.1 p.2) st) x =
      if x ∈ pairs.map Prod.fst then getHide s0 x else getHide st x := by
  induction pairs generalizing st with
  | nil => simp
  | cons p ps ih =>
    simp only [List.foldl_cons, List.map_cons]
    rw [ih (fun q hq => hp q (List.mem_cons_of_mem p hq)) (setHide st p.1 p.2)]
    by_cases hx : x ∈ ps.map Prod.fst
    · simp [hx]
    · by_cases hxp : x = p.1
      · have hv := hp p (List.mem_cons_self p ps)
        simp [hx, hxp, getHide_setHide, hv]
      · simp [hx, hxp, getHide_setHide, List.mem_cons]

theorem frame_foldl_setHide (pairs : List (String × Bool)) (st : SceneState) :
    (pairs.foldl (fun acc p => setHide acc p.1 p.2) st).frame = st.frame := by
  induction pairs generalizing st with
  | nil => rfl
  | cons p ps ih => simpa [setHide] using ih (setHide st p.1 p.2)

theorem frame_foldl_setHide_false (affected : List String) (s : SceneState) :
    (affected.foldl (fun st o => setHide st o false) s).frame = s.frame := by
  induction affected generalizing s with
  | nil => rfl
  | cons a rest ih => simpa [setHide] using ih (setHide s a false)

/-- Claim C6 (amended): the bake temporarily mutates the evaluation frame and
the viewport-visibility flags of animated objects; the visibility flags are
restored on every exit path, including when an injected error aborts the bake
mid-way, but the evaluation frame is not restored: a completed bake leaves
the scene at the last sampled frame (no code ever saves or resets the frame
pointer). -/
theorem claim_C6 (affected : List String) (frames : List ℤ)
    (failAfter : Option ℕ) (s : SceneState) (obj : String) :
    getHide (run_animation_export affected frames failAfter s).2 obj =
      getHide s obj ∧
    (failAfter = none →
      (run_animation_export affected frames failAfter s).2.frame =
        (frames.getLast?).getD s.frame) := by
  constructor
  · have hpairs : ∀ p ∈ affected.map (fun o => (o, getHide s o)),
        p.2 = getHide s p.1 := by
      intro p hq
      rcases List.mem_map.mp hq with ⟨o, -, rfl⟩
      rfl
    simp only [run_animation_export, temporary_unhide_objects]
    rw [getHide_foldl_restore (affected.map (fun o => (o, getHide s o))) s hpairs _ obj]
    have hkeys : (affected.map (fun o => (o, getHide s o))).map Prod.fst = affected := by
      rw [List.map_map]
      have : (Prod.fst ∘ fun o : String => (o, getHide s o)) = id := rfl
      rw [this, List.map_id]
    rw [hkeys]
    by_cases h : obj ∈ affected
    · simp [h]
    · have hbody : getHide (sample_frames frames failAfter
          (affected.foldl (fun st o => setHide st o false) s)).2 obj =
          getHide (affected.foldl (fun st o => setHide st o false) s) obj := by
        unfold getHide
        rw [sample_frames_hide]
      rw [if_neg h, hbody, getHide_foldl_setHide_false, if_neg h]
  · intro hf
    subst hf
    simp only [run_animation_export, temporary_unhide_objects]
    rw [frame_foldl_setHide, sample_frames_none_frame, frame_foldl_setHide_false]

/-- Claim C6 counterexample: a successful bake of frames 10, 11, 12 starting
from evaluation frame 1 restores the visibility flag of the affected object
but leaves the evaluation frame at the last sampled frame 12, not at 1 — the
frame pointer is not restored, refuting the claim as stated. -/
theorem claim_C6_counterexample :
    run_animation_export ["cube"] [10, 11, 12] none
        { frame := 1, hide_viewport := [("cube", true)] } =
      (true, { frame := 12, hide_viewport := [("cube", true)] }) ∧
    (12 : ℤ) ≠ 1 := by
  constructor
  · decide
  · decide

/-- Witness for C6 at concrete inputs: visibility is restored even when the
bake aborts after one sample (error exit path), and a completed bake leaves
the frame at the last sampled frame. -/
theorem claim_C6_witness :
    getHide (run_animation_export ["cube"] [10, 11, 12] (some 1)
        { frame := 1, hide_viewport := [("cube", true)] }).2 "cube" =
      getHide { frame := 1, hide_viewport := [("cube", true)] } "cube" ∧
    (run_animation_export ["cube"] [10, 11, 12] none
        { frame := 1, hide_viewport := [("cube", true)] }).2.frame =
      (([10, 11, 12] : List ℤ).getLast?).getD 1 := by
  constructor
  · exact (claim_C6 ["cube"] [10, 11, 12] (some 1)
      { frame := 1, hide_viewport := [("cube", true)] } "cube").1
  · exact (claim_C6 ["cube"] [10, 11, 12] none
      { frame := 1, hide_viewport := [("cube", true)] } "cube").2 rfl

theorem add_object_excluded (s : ExportSettings) (all_objects : List String)
    (parent : Option ParentNodeRef) (obj : BObj)
    (h : obj.exclude_from_export = true) :
    add_object_to_i3d s all_objects parent obj = Except.ok [] := by
  rw [add_object_to_i3d]
  simp [h]

theorem add_object_type_excluded (s : ExportSettings) (all_objects : List String)
    (parent : Option ParentNodeRef) (obj : BObj)
    (h : s.object_types_to_export.contains obj.objType = false) :
    add_object_to_i3d s all_objects parent obj = Except.ok [] := by
  rw [add_object_to_i3d]
  have h2 : (!(s.object_types_to_export.contains obj.objType)) = true := by
    rw [h]
    rfl
  by_cases he : obj.exclude_from_export = true
  · rw [if_pos he]
  · rw [if_neg he, if_pos h2]

theorem add_children_nil (s : ExportSettings) (all_objects : List String)
    (parent : Option ParentNodeRef) :
    add_children s all_objects parent [] = Except.ok [] := by
  rw [add_children]

theorem add_children_cons (s : ExportSettings) (all_objects : List String)
    (parent : Option ParentNodeRef) (c : BObj) (rest : List BObj)
    (ns ms : List ExpNode)
    (hc : add_object_to_i3d s all_objects parent c = Except.ok ns)
    (hrest : add_children s all_objects parent rest = Except.ok ms) :
    add_children s all_objects parent (c :: rest) = Except.ok (ns ++ ms) := by
  rw [add_children, hc, hrest]

theorem add_object_empty_node (s : ExportSettings) (all_objects : List String)
    (parent : Option ParentNodeRef) (obj : BObj) (ns : List ExpNode)
    (h1 : obj.exclude_from_export = false)
    (h2 : s.object_types_to_export.contains obj.objType = true)
    (h3 : obj.objType = ObjType.EMPTY)
    (hch : add_children s all_objects
      (some { name := obj.name, collapsed_armature := false,
              armature_parent := parent_attach parent })
      (sort_by_outliner_ordering BObj.name obj.children) = Except.ok ns) :
    add_object_to_i3d s all_objects parent obj =
      Except.ok ({ name := obj.name, kind := NodeKind.transformGroup,
                   parent := parent_attach parent } :: ns) := by
  rw [add_object_to_i3d]
  rw [h3] at h2
  simp only [h1, h2, h3,
    show (NodeKind.transformGroup == NodeKind.armatureRoot) = false from rfl,
    Bool.false_and, hch]
  simp

theorem add_object_mesh_unbound (s : ExportSettings) (all_objects : List String)
    (parent : Option ParentNodeRef) (obj : BObj)
    (h1 : obj.exclude_from_export = false)
    (h2 : s.object_types_to_export.contains obj.objType = true)
    (h3 : obj.objType = ObjType.MESH)
    (hrm : resolve_mesh_node s all_objects obj = (none, false))
    (hne : obj.children.isEmpty = false) :
    add_object_to_i3d s all_objects parent obj =
      Except.error PyErr.unboundLocalError := by
  rw [add_object_to_i3d]
  rw [h3] at h2
  simp only [h1, h2, h3, hrm, hne]
  simp

theorem add_object_mesh_unbound_no_children (s : ExportSettings)
    (all_objects : List String) (parent : Option ParentNodeRef) (obj : BObj)
    (h1 : obj.exclude_from_export = false)
    (h2 : s.object_types_to_export.contains obj.objType = true)
    (h3 : obj.objType = ObjType.MESH)
    (hrm : resolve_mesh_node s all_objects obj = (none, false))
    (hce : obj.children.isEmpty = true) :
    add_object_to_i3d s all_objects parent obj = Except.ok [] := by
  rw [add_object_to_i3d]
  rw [h3] at h2
  simp only [h1, h2, h3, hrm, hce]
  simp

/-- Claim C1 (amended): the two exclusion mechanisms are symmetric — an
object flagged exclude-from-export is dropped together with its entire
subtree, and an object whose type is not in the configured export type set
is likewise dropped together with its entire subtree (the type check returns
without processing children; descendants are not reparented to the current
parent). -/
theorem claim_C1 (s : ExportSettings) (all_objects : List String)
    (parent : Option ParentNodeRef) (obj : BObj) :
    (obj.exclude_from_export = true →
      add_object_to_i3d s all_objects parent obj = Except.ok []) ∧
    (s.object_types_to_export.contains obj.objType = false →
      add_object_to_i3d s all_objects parent obj = Except.ok []) :=
  ⟨fun h => add_object_excluded s all_objects parent obj h,
   fun h => add_object_type_excluded s all_objects parent obj h⟩

/-- The claim C1 counterexample scene: a three-level chain in which the
middle object is excluded by type (LIGHT is not in the export type set)
while the root and the grandchild are exportable EMPTY objects. -/
def c1CounterLeaf : BObj := BObj.mk "leafc" ObjType.EMPTY false false (-1) none false []

def c1CounterMid : BObj :=
  BObj.mk "midb" ObjType.LIGHT false false (-1) none false [c1CounterLeaf]

def c1CounterRoot : BObj :=
  BObj.mk "roota" ObjType.EMPTY false false (-1) none false [c1CounterMid]

def c1Settings : ExportSettings :=
  { object_types_to_export := [ObjType.EMPTY], features_to_export := [] }

/-- Claim C1 counterexample: exporting the three-level chain yields only the
root node — the grandchild "leafc" under the type-excluded "midb" is dropped
and is not reparented to "roota", refuting the claimed asymmetry between
type exclusion and explicit exclusion. -/
theorem claim_C1_counterexample :
    (add_object_to_i3d c1Settings [] none c1CounterRoot).map
      (List.map ExpNode.name) = Except.ok ["roota"] := by
  have hmid : add_object_to_i3d c1Settings []
      (some { name := "roota", collapsed_armature := false,
              armature_parent := none }) c1CounterMid = Except.ok [] :=
    add_object_type_excluded _ _ _ _ (by decide)
  have hch : add_children c1Settings []
      (some { name := "roota", collapsed_armature := false,
              armature_parent := none }) [c1CounterMid] = Except.ok [] := by
    have h := add_children_cons c1Settings []
      (some { name := "roota", collapsed_armature := false,
              armature_parent := none }) c1CounterMid [] [] [] hmid
      (add_children_nil _ _ _)
    simpa using h
  have hroot := add_object_empty_node c1Settings [] none c1CounterRoot []
    (by decide) (by decide) (by decide) (by exact hch)
  rw [hroot]
  rfl

/-- The claim C1 witness objects: an explicitly excluded EMPTY with a child,
and the type-excluded middle object of the counterexample chain. -/
def c1ExcludedObj : BObj :=
  BObj.mk "hidden" ObjType.EMPTY true false (-1) none false [c1CounterLeaf]

/-- Witness for C1 at concrete inputs: both the explicitly excluded object
and the type-excluded object produce no nodes at all (subtrees dropped in
both cases). -/
theorem claim_C1_witness :
    add_object_to_i3d c1Settings [] none c1ExcludedObj = Except.ok [] ∧
    add_object_to_i3d c1Settings [] none c1CounterMid = Except.ok [] := by
  constructor
  · exact (claim_C1 c1Settings [] none c1ExcludedObj).1 rfl
  · exact (claim_C1 c1Settings [] none c1CounterMid).2 (by decide)

/-- The claim C2 failing inputs: a MESH with merge-children enabled whose
only child is a non-mesh EMPTY, and one with no children at all. -/
def c2ChildEmpty : BObj := BObj.mk "childe" ObjType.EMPTY false false (-1) none false []

def c2MeshNonMeshChild : BObj :=
  BObj.mk "meshm" ObjType.MESH false true (-1) none false [c2ChildEmpty]

def c2MeshNoChildren : BObj := BObj.mk "meshn" ObjType.MESH false true (-1) none false []

def c2Settings : ExportSettings :=
  { object_types_to_export := [ObjType.MESH, ObjType.EMPTY],
    features_to_export := [Feature.MERGE_CHILDREN] }

/-- Claim C2 evaluated at the failing inputs: with merge-children enabled
but no mesh children, the warning branch leaves the Python local `node`
unassigned and the if/elif chain skips the Shape fallback entirely
(`resolve_mesh_node` yields no node kind), so the child loop raises
`UnboundLocalError` when any child exists, and with no children the object
is silently dropped without any Shape node — the code never exports the
object as a regular Shape on this path, contradicting its own warning
message and the spec. -/
theorem claim_C2 :
    resolve_mesh_node c2Settings [] c2MeshNonMeshChild = (none, false) ∧
    add_object_to_i3d c2Settings [] none c2MeshNonMeshChild =
      Except.error PyErr.unboundLocalError ∧
    add_object_to_i3d c2Settings [] none c2MeshNoChildren = Except.ok [] := by
  refine ⟨by decide, ?_, ?_⟩
  · exact add_object_mesh_unbound c2Settings [] none c2MeshNonMeshChild
      (by decide) (by decide) (by decide) (by decide) (by decide)
  · exact add_object_mesh_unbound_no_children c2Settings [] none c2MeshNoChildren
      (by decide) (by decide) (by decide) (by decide) (by decide)
